import Mathlib

/-!
Shallow embedding of the Sayna Python SDK WebSocket client
(src/python-sdk/src/sayna_client/client.py and types.py).

JSON values are modelled by an inductive type; pydantic models become
structures whose optional fields are `Option`s; `model_dump(exclude_none=True)`
becomes an encoder that omits `none` fields; pydantic construction from a
parsed dict becomes a decoder returning `Option`.  The client object's
mutable attributes become an explicit `ClientState` record, and the network
(aiohttp) is an injected environment of success/failure flags.
-/

/-- JSON value, the shape returned by json.loads on a text frame. -/
inductive JValue where
  | jnull : JValue
  | jbool : Bool → JValue
  | jint : Int → JValue
  | jnum : Rat → JValue
  | jstr : String → JValue
  | jlist : List JValue → JValue
  | jobj : List (String × JValue) → JValue

/-- Lookup of a key in a JSON object (dict access / dict.get). -/
def jlookup (k : String) : List (String × JValue) → Option JValue
  | [] => none
  | (k', v) :: rest => if k = k' then some v else jlookup k rest

/-- Encoder helper: model_dump(exclude_none=True) emits a field only when it
is not None. -/
def optField (k : String) : Option JValue → List (String × JValue)
  | none => []
  | some v => [(k, v)]

/-- Effectful map over a list in the Option monad (decoding a JSON array
element by element; the first failure fails the whole decode). -/
def mapOpt (f : α → Option β) : List α → Option (List β)
  | [] => some []
  | a :: l => (f a).bind fun b => (mapOpt f l).map (b :: ·)

/-- Pydantic str field validation: only a JSON string is accepted. -/
def asStr : JValue → Option String
  | .jstr s => some s
  | _ => none

/-- Pydantic bool field validation. -/
def asBool : JValue → Option Bool
  | .jbool b => some b
  | _ => none

/-- Pydantic int field validation. -/
def asInt : JValue → Option Int
  | .jint n => some n
  | _ => none

/-- Pydantic float field validation (an int is coerced to float). -/
def asNum : JValue → Option Rat
  | .jint n => some (n : Rat)
  | .jnum q => some q
  | _ => none

/-- Pydantic nested-model field validation: the value must be an object. -/
def asObj : JValue → Option (List (String × JValue))
  | .jobj f => some f
  | _ => none

/-- Pydantic list field validation. -/
def asList : JValue → Option (List JValue)
  | .jlist l => some l
  | _ => none

/-- Decode a required field: missing or invalid fails the model. -/
def getReq (j : List (String × JValue)) (k : String) (p : JValue → Option α) : Option α :=
  (jlookup k j).bind p

/-- Decode an optional field with default `d`: a missing key yields the
default, an explicit null yields `none`, and an invalid value fails. -/
def getOpt (j : List (String × JValue)) (k : String) (p : JValue → Option α) (d : Option α) :
    Option (Option α) :=
  match jlookup k j with
  | none => some d
  | some .jnull => some none
  | some v => (p v).map some

/-- Pydantic Literal discriminator check: the field may be absent (default
applies) but when present must be the given string. -/
def checkType (j : List (String × JValue)) (t : String) : Bool :=
  match jlookup "type" j with
  | none => true
  | some (.jstr s) => s == t
  | some _ => false

/-! Message schema, translated from src/python-sdk/src/sayna_client/types.py.
The constant `type` discriminator of each pydantic model is not stored as a
field; encoders emit it and decoders check it. -/

/-- Word pronunciation override for text-to-speech. -/
structure Pronunciation where
  word : String
  pronunciation : String

/-- Speech-to-Text (STT) configuration options. -/
structure STTConfig where
  provider : String
  language : String
  sample_rate : Int
  channels : Int
  punctuation : Bool
  encoding : String
  model : String

/-- Text-to-Speech (TTS) configuration options. -/
structure TTSConfig where
  provider : String
  voice_id : String
  speaking_rate : Rat
  audio_format : String
  sample_rate : Int
  connection_timeout : Int
  request_timeout : Int
  model : String
  pronunciations : List Pronunciation

/-- LiveKit room configuration for real-time communication. -/
structure LiveKitConfig where
  room_name : String
  enable_recording : Option Bool
  recording_file_key : Option String
  sayna_participant_identity : Option String
  sayna_participant_name : Option String
  listen_participants : Option (List String)

/-- Configuration message sent to initialize the WebSocket connection. -/
structure ConfigMessage where
  audio : Option Bool
  stt_config : Option STTConfig
  tts_config : Option TTSConfig
  livekit : Option LiveKitConfig

/-- Message to request text-to-speech synthesis. -/
structure SpeakMessage where
  text : String
  flush : Option Bool
  allow_interruption : Option Bool

/-- Message to clear the TTS queue (payload is just the discriminator). -/
structure ClearMessage where

/-- Message to send data to the Sayna session. -/
structure SendMessageMessage where
  message : String
  role : String
  topic : Option String
  debug : Option (List (String × JValue))

/-- Message received when the Sayna connection is ready. -/
structure ReadyMessage where
  livekit_room_name : Option String
  livekit_url : String
  sayna_participant_identity : Option String
  sayna_participant_name : Option String

/-- Speech-to-text transcription result. -/
structure STTResultMessage where
  transcript : String
  is_final : Bool
  is_speech_final : Bool
  confidence : Rat

/-- Error message from the Sayna server. -/
structure ErrorMessage where
  message : String

/-- Message data from a Sayna session participant. -/
structure SaynaMessage where
  message : Option String
  data : Option String
  identity : String
  topic : String
  room : String
  timestamp : Int

/-- Wrapper for participant messages. -/
structure MessageMessage where
  message : SaynaMessage

/-- Information about a session participant. -/
structure Participant where
  identity : String
  name : Option String
  room : String
  timestamp : Int

/-- Message received when a participant disconnects. -/
structure ParticipantDisconnectedMessage where
  participant : Participant

/-- Message received when the TTS playback is complete. -/
structure TTSPlaybackCompleteMessage where
  timestamp : Int

/-! Encoders: model_dump(exclude_none=True), in pydantic declaration order. -/

/-- Encode a Pronunciation (all fields required). -/
def encodePronunciation (p : Pronunciation) : List (String × JValue) :=
  [("word", .jstr p.word), ("pronunciation", .jstr p.pronunciation)]

/-- Encode an STTConfig (all fields required). -/
def encodeSTTConfig (c : STTConfig) : List (String × JValue) :=
  [("provider", .jstr c.provider), ("language", .jstr c.language),
   ("sample_rate", .jint c.sample_rate), ("channels", .jint c.channels),
   ("punctuation", .jbool c.punctuation), ("encoding", .jstr c.encoding),
   ("model", .jstr c.model)]

/-- Encode a TTSConfig. -/
def encodeTTSConfig (c : TTSConfig) : List (String × JValue) :=
  [("provider", .jstr c.provider), ("voice_id", .jstr c.voice_id),
   ("speaking_rate", .jnum c.speaking_rate), ("audio_format", .jstr c.audio_format),
   ("sample_rate", .jint c.sample_rate), ("connection_timeout", .jint c.connection_timeout),
   ("request_timeout", .jint c.request_timeout), ("model", .jstr c.model),
   ("pronunciations", .jlist (c.pronunciations.map fun p => .jobj (encodePronunciation p)))]

/-- Encode a LiveKitConfig, omitting None fields. -/
def encodeLiveKitConfig (c : LiveKitConfig) : List (String × JValue) :=
  ("room_name", .jstr c.room_name)
    :: optField "enable_recording" (c.enable_recording.map .jbool)
    ++ optField "recording_file_key" (c.recording_file_key.map .jstr)
    ++ optField "sayna_participant_identity" (c.sayna_participant_identity.map .jstr)
    ++ optField "sayna_participant_name" (c.sayna_participant_name.map .jstr)
    ++ optField "listen_participants"
        (c.listen_participants.map fun l => .jlist (l.map .jstr))

/-- Encode a ConfigMessage, omitting None fields. -/
def encodeConfigMessage (c : ConfigMessage) : List (String × JValue) :=
  ("type", .jstr "config")
    :: optField "audio" (c.audio.map .jbool)
    ++ optField "stt_config" (c.stt_config.map fun x => .jobj (encodeSTTConfig x))
    ++ optField "tts_config" (c.tts_config.map fun x => .jobj (encodeTTSConfig x))
    ++ optField "livekit" (c.livekit.map fun x => .jobj (encodeLiveKitConfig x))

/-- Encode a SpeakMessage, omitting None fields. -/
def encodeSpeakMessage (m : SpeakMessage) : List (String × JValue) :=
  ("type", .jstr "speak") :: ("text", .jstr m.text)
    :: optField "flush" (m.flush.map .jbool)
    ++ optField "allow_interruption" (m.allow_interruption.map .jbool)

/-- Encode a ClearMessage. -/
def encodeClearMessage : List (String × JValue) :=
  [("type", .jstr "clear")]

/-- Encode a SendMessageMessage, omitting None fields. -/
def encodeSendMessageMessage (m : SendMessageMessage) : List (String × JValue) :=
  ("type", .jstr "send_message") :: ("message", .jstr m.message) :: ("role", .jstr m.role)
    :: optField "topic" (m.topic.map .jstr)
    ++ optField "debug" (m.debug.map .jobj)

/-! Decoders: pydantic model construction from a parsed dict.  Extra keys are
ignored; a missing required field or an invalid value is a decode failure. -/

/-- Decode a Pronunciation. -/
def decodePronunciation (j : List (String × JValue)) : Option Pronunciation :=
  (getReq j "word" asStr).bind fun word =>
  (getReq j "pronunciation" asStr).map fun pr => ⟨word, pr⟩

/-- Decode an STTConfig. -/
def decodeSTTConfig (j : List (String × JValue)) : Option STTConfig :=
  (getReq j "provider" asStr).bind fun provider =>
  (getReq j "language" asStr).bind fun language =>
  (getReq j "sample_rate" asInt).bind fun sample_rate =>
  (getReq j "channels" asInt).bind fun channels =>
  (getReq j "punctuation" asBool).bind fun punctuation =>
  (getReq j "encoding" asStr).bind fun encoding =>
  (getReq j "model" asStr).map fun model =>
  ⟨provider, language, sample_rate, channels, punctuation, encoding, model⟩

/-- Decode a TTSConfig; a missing pronunciations key yields the empty-list
default of its default_factory. -/
def decodeTTSConfig (j : List (String × JValue)) : Option TTSConfig :=
  (getReq j "provider" asStr).bind fun provider =>
  (getReq j "voice_id" asStr).bind fun voice_id =>
  (getReq j "speaking_rate" asNum).bind fun speaking_rate =>
  (getReq j "audio_format" asStr).bind fun audio_format =>
  (getReq j "sample_rate" asInt).bind fun sample_rate =>
  (getReq j "connection_timeout" asInt).bind fun connection_timeout =>
  (getReq j "request_timeout" asInt).bind fun request_timeout =>
  (getReq j "model" asStr).bind fun model =>
  (match jlookup "pronunciations" j with
   | none => some []
   | some (.jlist l) => mapOpt (fun v => (asObj v).bind decodePronunciation) l
   | some _ => none).map fun pronunciations =>
  ⟨provider, voice_id, speaking_rate, audio_format, sample_rate,
   connection_timeout, request_timeout, model, pronunciations⟩

/-- Decode a LiveKitConfig with its pydantic field defaults. -/
def decodeLiveKitConfig (j : List (String × JValue)) : Option LiveKitConfig :=
  (getReq j "room_name" asStr).bind fun room_name =>
  (getOpt j "enable_recording" asBool (some false)).bind fun enable_recording =>
  (getOpt j "recording_file_key" asStr none).bind fun recording_file_key =>
  (getOpt j "sayna_participant_identity" asStr (some "sayna-ai")).bind fun spi =>
  (getOpt j "sayna_participant_name" asStr (some "Sayna AI")).bind fun spn =>
  (getOpt j "listen_participants" (fun v => (asList v).bind (mapOpt asStr)) (some [])).map
    fun listen_participants =>
  ⟨room_name, enable_recording, recording_file_key, spi, spn, listen_participants⟩

/-- Decode a ConfigMessage (audio defaults to true when absent). -/
def decodeConfigMessage (j : List (String × JValue)) : Option ConfigMessage :=
  if checkType j "config" then
    (getOpt j "audio" asBool (some true)).bind fun audio =>
    (getOpt j "stt_config" (fun v => (asObj v).bind decodeSTTConfig) none).bind fun stt =>
    (getOpt j "tts_config" (fun v => (asObj v).bind decodeTTSConfig) none).bind fun tts =>
    (getOpt j "livekit" (fun v => (asObj v).bind decodeLiveKitConfig) none).map fun livekit =>
    ⟨audio, stt, tts, livekit⟩
  else none

/-- Decode a SpeakMessage. -/
def decodeSpeakMessage (j : List (String × JValue)) : Option SpeakMessage :=
  if checkType j "speak" then
    (getReq j "text" asStr).bind fun text =>
    (getOpt j "flush" asBool none).bind fun flush =>
    (getOpt j "allow_interruption" asBool none).map fun ai =>
    ⟨text, flush, ai⟩
  else none

/-- Decode a ClearMessage. -/
def decodeClearMessage (j : List (String × JValue)) : Option ClearMessage :=
  if checkType j "clear" then some ⟨⟩ else none

/-- Decode a SendMessageMessage. -/
def decodeSendMessageMessage (j : List (String × JValue)) : Option SendMessageMessage :=
  if checkType j "send_message" then
    (getReq j "message" asStr).bind fun message =>
    (getReq j "role" asStr).bind fun role =>
    (getOpt j "topic" asStr none).bind fun topic =>
    (getOpt j "debug" asObj none).map fun debug =>
    ⟨message, role, topic, debug⟩
  else none

/-- Decode a ReadyMessage (livekit_url is required). -/
def decodeReadyMessage (j : List (String × JValue)) : Option ReadyMessage :=
  if checkType j "ready" then
    (getOpt j "livekit_room_name" asStr none).bind fun room =>
    (getReq j "livekit_url" asStr).bind fun url =>
    (getOpt j "sayna_participant_identity" asStr none).bind fun spi =>
    (getOpt j "sayna_participant_name" asStr none).map fun spn =>
    ⟨room, url, spi, spn⟩
  else none

/-- Decode an STTResultMessage (all fields required). -/
def decodeSTTResultMessage (j : List (String × JValue)) : Option STTResultMessage :=
  if checkType j "stt_result" then
    (getReq j "transcript" asStr).bind fun transcript =>
    (getReq j "is_final" asBool).bind fun is_final =>
    (getReq j "is_speech_final" asBool).bind fun is_speech_final =>
    (getReq j "confidence" asNum).map fun confidence =>
    ⟨transcript, is_final, is_speech_final, confidence⟩
  else none

/-- Decode an ErrorMessage. -/
def decodeErrorMessage (j : List (String × JValue)) : Option ErrorMessage :=
  if checkType j "error" then (getReq j "message" asStr).map (⟨·⟩) else none

/-- Decode a SaynaMessage. -/
def decodeSaynaMessage (j : List (String × JValue)) : Option SaynaMessage :=
  (getOpt j "message" asStr none).bind fun message =>
  (getOpt j "data" asStr none).bind fun data =>
  (getReq j "identity" asStr).bind fun identity =>
  (getReq j "topic" asStr).bind fun topic =>
  (getReq j "room" asStr).bind fun room =>
  (getReq j "timestamp" asInt).map fun timestamp =>
  ⟨message, data, identity, topic, room, timestamp⟩

/-- Decode a MessageMessage. -/
def decodeMessageMessage (j : List (String × JValue)) : Option MessageMessage :=
  if checkType j "message" then
    (getReq j "message" (fun v => (asObj v).bind decodeSaynaMessage)).map (⟨·⟩)
  else none

/-- Decode a Participant. -/
def decodeParticipant (j : List (String × JValue)) : Option Participant :=
  (getReq j "identity" asStr).bind fun identity =>
  (getOpt j "name" asStr none).bind fun name =>
  (getReq j "room" asStr).bind fun room =>
  (getReq j "timestamp" asInt).map fun timestamp =>
  ⟨identity, name, room, timestamp⟩

/-- Decode a ParticipantDisconnectedMessage. -/
def decodeParticipantDisconnectedMessage (j : List (String × JValue)) :
    Option ParticipantDisconnectedMessage :=
  if checkType j "participant_disconnected" then
    (getReq j "participant" (fun v => (asObj v).bind decodeParticipant)).map (⟨·⟩)
  else none

/-- Decode a TTSPlaybackCompleteMessage. -/
def decodeTTSPlaybackCompleteMessage (j : List (String × JValue)) :
    Option TTSPlaybackCompleteMessage :=
  if checkType j "tts_playback_complete" then
    (getReq j "timestamp" asInt).map (⟨·⟩)
  else none

/-! Client model, translated from src/python-sdk/src/sayna_client/client.py.
The SaynaClient object's mutable attributes become the record `ClientState`;
aiohttp success/failure is injected through environment records. -/

/-- Modelled from the spec: the error kinds of sayna_client/errors.py
(SaynaValidationError, SaynaConnectionError, SaynaNotConnectedError,
SaynaNotReadyError), whose source module is not part of the given sources;
the spec lists them as distinct error kinds. -/
inductive SaynaError where
  | validationError (msg : String)
  | connectionError (msg : String)
  | notConnectedError
  | notReadyError

/-- Mutable attributes of a SaynaClient relevant to the session state
machine: `_connected`, `_ready`, the four ready-message fields, whether
`_ws` holds an open WebSocket, whether `_session` holds an open aiohttp
session, whether `_receive_task` holds a live dispatch-loop task, and
whether the REST `_http_client` has been closed. -/
structure ClientState where
  connected : Bool
  ready : Bool
  livekit_room_name : Option String
  livekit_url : Option String
  sayna_participant_identity : Option String
  sayna_participant_name : Option String
  ws_open : Bool
  session_open : Bool
  receive_task : Bool
  http_closed : Bool

/-- State of a freshly constructed SaynaClient (the __init__ attribute
values). -/
def initState : ClientState :=
  ⟨false, false, none, none, none, none, false, false, false, false⟩

/-- An outbound frame written to the WebSocket. -/
inductive Frame where
  | text (j : List (String × JValue))
  | binary (data : List Nat)

namespace SaynaClient

/-- SaynaClient._check_connected: raises SaynaNotConnectedError when not
connected. -/
def check_connected (s : ClientState) : Option SaynaError :=
  if !s.connected then some .notConnectedError else none

/-- SaynaClient._check_ready: _check_connected, then raises
SaynaNotReadyError when not ready. -/
def check_ready (s : ClientState) : Option SaynaError :=
  match check_connected s with
  | some e => some e
  | none => if !s.ready then some .notReadyError else none

/-- SaynaClient._send_json: checks connected, then writes the JSON text
frame when `_ws` is set. -/
def send_json (s : ClientState) (j : List (String × JValue)) :
    Except SaynaError (List Frame) :=
  match check_connected s with
  | some e => .error e
  | none => .ok (if s.ws_open then [Frame.text j] else [])

/-- Result of a send operation: the raised-or-ok outcome, the client state
afterwards, and the frames actually written. -/
structure SendResult where
  result : Except SaynaError Unit
  state : ClientState
  frames : List Frame

/-- SaynaClient.send_speak. -/
def send_speak (s : ClientState) (text : String) (flush allow_interruption : Bool) :
    SendResult :=
  match check_ready s with
  | some e => ⟨.error e, s, []⟩
  | none =>
    match send_json s (encodeSpeakMessage ⟨text, some flush, some allow_interruption⟩) with
    | .error e => ⟨.error e, s, []⟩
    | .ok fs => ⟨.ok (), s, fs⟩

/-- SaynaClient.send_clear. -/
def send_clear (s : ClientState) : SendResult :=
  match check_ready s with
  | some e => ⟨.error e, s, []⟩
  | none =>
    match send_json s encodeClearMessage with
    | .error e => ⟨.error e, s, []⟩
    | .ok fs => ⟨.ok (), s, fs⟩

/-- SaynaClient.send_message (the topic parameter defaults to "messages" at
the Python call boundary; it is always a string here). -/
def send_message (s : ClientState) (message role topic : String)
    (debug : Option (List (String × JValue))) : SendResult :=
  match check_ready s with
  | some e => ⟨.error e, s, []⟩
  | none =>
    match send_json s (encodeSendMessageMessage ⟨message, role, some topic, debug⟩) with
    | .error e => ⟨.error e, s, []⟩
    | .ok fs => ⟨.ok (), s, fs⟩

/-- SaynaClient.send_audio: checks ready, then writes the binary frame when
`_ws` is set. -/
def send_audio (s : ClientState) (data : List Nat) : SendResult :=
  match check_ready s with
  | some e => ⟨.error e, s, []⟩
  | none => ⟨.ok (), s, if s.ws_open then [Frame.binary data] else []⟩

/-- Success/failure of the aiohttp calls made by connect: whether
session.ws_connect succeeds and whether sending the config frame succeeds. -/
structure NetEnv where
  ws_connect_ok : Bool
  send_ok : Bool

/-- Result of connect: outcome, state afterwards, frames written, and
whether a Transport open (ws_connect) was attempted. -/
structure ConnectResult where
  result : Except SaynaError Unit
  state : ClientState
  frames : List Frame
  wsAttempted : Bool

/-- SaynaClient.connect: no-op warning when already connected; synchronous
bundle validation; then open session, connect WebSocket, mark connected,
send the config message and start the receive task, turning aiohttp
failures into SaynaConnectionError with `_connected` reset to False. -/
def connect (s : ClientState) (env : NetEnv) (stt_config : Option STTConfig)
    (tts_config : Option TTSConfig) (livekit_config : Option LiveKitConfig)
    (audio : Bool) : ConnectResult :=
  if s.connected then ⟨.ok (), s, [], false⟩
  else if audio && (stt_config.isNone || tts_config.isNone) then
    ⟨.error (.validationError "stt_config and tts_config are required when audio=True"),
      s, [], false⟩
  else
    let s1 := { s with session_open := true }
    if !env.ws_connect_ok then
      ⟨.error (.connectionError "Failed to connect to WebSocket"),
        { s1 with connected := false }, [], true⟩
    else
      let s2 := { s1 with ws_open := true, connected := true }
      if !env.send_ok then
        ⟨.error (.connectionError "Unexpected error during connection"),
          { s2 with connected := false }, [], true⟩
      else
        ⟨.ok (), { s2 with receive_task := true },
          [Frame.text (encodeConfigMessage ⟨some audio, stt_config, tts_config, livekit_config⟩)],
          true⟩

/-- Success/failure of the cleanup steps of disconnect: cancelling and
awaiting the receive task, closing the WebSocket, closing the aiohttp
session. -/
structure DisconnectEnv where
  cancel_ok : Bool
  ws_close_ok : Bool
  session_close_ok : Bool

/-- Result of disconnect: outcome and state afterwards. -/
structure DisconnectResult where
  result : Except SaynaError Unit
  state : ClientState

/-- The receive-task cancellation step of disconnect: when a live receive
task exists, cancelling it and awaiting it drives the cancelled coroutine
to completion, so the receive loop's own finally clause runs and clears
`_connected` and `_ready` before disconnect's remaining steps; the task is
finished afterwards.  This happens whether or not the await itself raises,
since awaiting only returns or raises once the task has completed. -/
def cancelReceiveTask (s : ClientState) : ClientState :=
  if s.receive_task then
    { s with connected := false, ready := false, receive_task := false }
  else s

/-- SaynaClient.disconnect: early no-op warning when not connected;
otherwise a single try block cancels and awaits the receive task (whose
own finally clause clears `_connected`/`_ready` first), closes the
WebSocket, closes the session and clears `_connected`/`_ready` again; the
except clause re-raises any step failure as SaynaConnectionError
(skipping the remaining steps of the try block); the finally clause always
closes the REST http client. -/
def disconnect (s : ClientState) (env : DisconnectEnv) : DisconnectResult :=
  if !s.connected then ⟨.ok (), s⟩
  else
    let s0 := cancelReceiveTask s
    if s.receive_task && !env.cancel_ok then
      ⟨.error (.connectionError "Error during disconnect"), { s0 with http_closed := true }⟩
    else if s0.ws_open && !env.ws_close_ok then
      ⟨.error (.connectionError "Error during disconnect"), { s0 with http_closed := true }⟩
    else
      let s2 := { s0 with ws_open := false }
      if s2.session_open && !env.session_close_ok then
        ⟨.error (.connectionError "Error during disconnect"), { s2 with http_closed := true }⟩
      else
        let s3 := { s2 with session_open := false, connected := false, ready := false }
        ⟨.ok (), { s3 with http_closed := true }⟩

end SaynaClient

/-! Dispatch loop model: SaynaClient._receive_loop, _handle_text_message,
_handle_binary_message and the _handle_* message handlers. -/

/-- Registered callbacks.  Each slot is None (unregistered) or Some raises,
where `raises` records whether the host handler throws when invoked (the
handler body is opaque to the client; only its raising behaviour is
observable at the dispatch site). -/
structure Callbacks where
  on_ready : Option Bool
  on_stt_result : Option Bool
  on_message : Option Bool
  on_error : Option Bool
  on_participant_disconnected : Option Bool
  on_tts_playback_complete : Option Bool
  on_audio : Option Bool

/-- A client with no callbacks registered. -/
def noCallbacks : Callbacks := ⟨none, none, none, none, none, none, none⟩

/-- A recorded callback invocation (which handler was called, with what). -/
inductive Invocation where
  | ready (m : ReadyMessage)
  | sttResult (m : STTResultMessage)
  | message (m : MessageMessage)
  | error (m : ErrorMessage)
  | participantDisconnected (m : ParticipantDisconnectedMessage)
  | ttsPlaybackComplete (m : TTSPlaybackCompleteMessage)
  | audio (data : List Nat)

/-- Invoking a host handler: Ok when it returns, an error when it throws. -/
def runCb (raises : Bool) : Except String Unit :=
  if raises then .error "callback raised" else .ok ()

/-- The try/except around each callback invocation in the _handle_* methods:
an unregistered slot is skipped; a registered handler is invoked, and an
exception it raises is caught and logged, so the invocation is recorded
either way and nothing propagates. -/
def callCb (cb : Option Bool) (inv : Invocation) : List Invocation :=
  match cb with
  | none => []
  | some raises =>
    match runCb raises with
    | .ok () => [inv]
    | .error _ => [inv]

/-- A successfully decoded inbound control message (the discriminated union
over the `type` field that _handle_text_message branches on). -/
inductive InMsg where
  | ready (m : ReadyMessage)
  | sttResult (m : STTResultMessage)
  | message (m : MessageMessage)
  | error (m : ErrorMessage)
  | participantDisconnected (m : ParticipantDisconnectedMessage)
  | ttsPlaybackComplete (m : TTSPlaybackCompleteMessage)

/-- The classification performed by _handle_text_message: read
parsed.get("type") and build the matching pydantic model from the parsed
dict.  None models both the unknown-discriminator branch and a pydantic
ValidationError (missing required fields), which are logged and dropped. -/
def decodeInbound (j : List (String × JValue)) : Option InMsg :=
  match jlookup "type" j with
  | some (.jstr "ready") => (decodeReadyMessage j).map .ready
  | some (.jstr "stt_result") => (decodeSTTResultMessage j).map .sttResult
  | some (.jstr "message") => (decodeMessageMessage j).map .message
  | some (.jstr "error") => (decodeErrorMessage j).map .error
  | some (.jstr "participant_disconnected") =>
      (decodeParticipantDisconnectedMessage j).map .participantDisconnected
  | some (.jstr "tts_playback_complete") =>
      (decodeTTSPlaybackCompleteMessage j).map .ttsPlaybackComplete
  | _ => none

/-- The _handle_* method for each decoded message: _handle_ready marks the
session ready and stores the four ready fields before invoking the ready
callback; every other handler only invokes its callback. -/
def dispatchMsg (s : ClientState) (cbs : Callbacks) : InMsg → ClientState × List Invocation
  | .ready m =>
    ({ s with ready := true, livekit_room_name := m.livekit_room_name,
              livekit_url := some m.livekit_url,
              sayna_participant_identity := m.sayna_participant_identity,
              sayna_participant_name := m.sayna_participant_name },
     callCb cbs.on_ready (.ready m))
  | .sttResult m => (s, callCb cbs.on_stt_result (.sttResult m))
  | .message m => (s, callCb cbs.on_message (.message m))
  | .error m => (s, callCb cbs.on_error (.error m))
  | .participantDisconnected m =>
      (s, callCb cbs.on_participant_disconnected (.participantDisconnected m))
  | .ttsPlaybackComplete m =>
      (s, callCb cbs.on_tts_playback_complete (.ttsPlaybackComplete m))

/-- SaynaClient._handle_text_message: decode and dispatch; a decode failure
or unknown discriminator is logged and the frame dropped. -/
def handleTextMessage (s : ClientState) (cbs : Callbacks) (j : List (String × JValue)) :
    ClientState × List Invocation :=
  match decodeInbound j with
  | some m => dispatchMsg s cbs m
  | none => (s, [])

/-- SaynaClient._handle_binary_message: forward the payload to the audio
callback when registered, catching any exception it raises. -/
def handleBinaryMessage (s : ClientState) (cbs : Callbacks) (data : List Nat) :
    ClientState × List Invocation :=
  (s, callCb cbs.on_audio (.audio data))

/-- One frame-or-event of the WebSocket inbound stream as seen by
_receive_loop.  textMalformed stands for a TEXT frame on which json.loads
(or the dict access on a non-object value) raises, which the surrounding
try/except of _handle_text_message catches and drops. -/
inductive InboundEvent where
  | textMalformed
  | text (j : List (String × JValue))
  | binary (data : List Nat)
  | wsError
  | wsClosed

/-- The finally clause of _receive_loop: when the loop exits (error frame,
close frame, stream end or cancellation) it clears `_connected` and
`_ready`; the dispatch-loop task is finished. -/
def loopFinally (s : ClientState) : ClientState :=
  { s with connected := false, ready := false, receive_task := false }

/-- The body of SaynaClient._receive_loop over a prefix of the inbound
stream: TEXT frames go to _handle_text_message, BINARY frames to
_handle_binary_message, and an ERROR or CLOSED frame breaks out of the
loop, running the finally clause; an exhausted event list means the loop
is still suspended awaiting the next frame. -/
def processEvents (s : ClientState) (cbs : Callbacks) :
    List InboundEvent → ClientState × List Invocation
  | [] => (s, [])
  | .textMalformed :: rest => processEvents s cbs rest
  | .text j :: rest =>
    ((processEvents (handleTextMessage s cbs j).1 cbs rest).1,
     (handleTextMessage s cbs j).2 ++ (processEvents (handleTextMessage s cbs j).1 cbs rest).2)
  | .binary d :: rest =>
    ((processEvents (handleBinaryMessage s cbs d).1 cbs rest).1,
     (handleBinaryMessage s cbs d).2
       ++ (processEvents (handleBinaryMessage s cbs d).1 cbs rest).2)
  | .wsError :: _ => (loopFinally s, [])
  | .wsClosed :: _ => (loopFinally s, [])

/-- One operation of the client API, with its injected environment.  A
dispatch step delivers a prefix of the inbound stream to the receive loop
and is a no-op unless the dispatch-loop task is live. -/
inductive Op where
  | opConnect (env : SaynaClient.NetEnv) (stt_config : Option STTConfig)
      (tts_config : Option TTSConfig) (livekit_config : Option LiveKitConfig) (audio : Bool)
  | opDisconnect (env : SaynaClient.DisconnectEnv)
  | opSendSpeak (text : String) (flush allow_interruption : Bool)
  | opSendClear
  | opSendMessage (message role topic : String) (debug : Option (List (String × JValue)))
  | opSendAudio (data : List Nat)
  | opDispatch (cbs : Callbacks) (evs : List InboundEvent)

/-- The state reached by running one operation. -/
def applyOp (s : ClientState) : Op → ClientState
  | .opConnect env stt tts lk audio => (SaynaClient.connect s env stt tts lk audio).state
  | .opDisconnect env => (SaynaClient.disconnect s env).state
  | .opSendSpeak t f a => (SaynaClient.send_speak s t f a).state
  | .opSendClear => (SaynaClient.send_clear s).state
  | .opSendMessage m r t d => (SaynaClient.send_message s m r t d).state
  | .opSendAudio d => (SaynaClient.send_audio s d).state
  | .opDispatch cbs evs => if s.receive_task then (processEvents s cbs evs).1 else s

/-- The state reached from a fresh client by a sequence of operations. -/
def runOps (ops : List Op) : ClientState :=
  ops.foldl applyOp initState

/-! Round-trip lemmas for the outbound message schema (model_dump with
exclude_none followed by pydantic reconstruction). -/

/-- Decoding an encoded pronunciation list recovers the list. -/
theorem mapOpt_pron_rt (l : List Pronunciation) :
    mapOpt (fun v => (asObj v).bind decodePronunciation)
      (l.map fun p => JValue.jobj (encodePronunciation p)) = some l := by
  induction l with
  | nil => rfl
  | cons p l ih =>
    simp only [List.map, mapOpt]
    rw [show (asObj (JValue.jobj (encodePronunciation p))).bind decodePronunciation = some p
      from rfl, ih]
    rfl

/-- Decoding an encoded string list recovers the list. -/
theorem mapOpt_str_rt (l : List String) :
    mapOpt asStr (l.map JValue.jstr) = some l := by
  induction l with
  | nil => rfl
  | cons s l ih =>
    simp only [List.map, mapOpt, asStr, ih]
    rfl

/-- STTConfig round trip is exact (all fields required). -/
theorem stt_rt (c : STTConfig) : decodeSTTConfig (encodeSTTConfig c) = some c := rfl

/-- TTSConfig round trip is exact. -/
theorem tts_rt (c : TTSConfig) : decodeTTSConfig (encodeTTSConfig c) = some c := by
  have h : decodeTTSConfig (encodeTTSConfig c) =
      (mapOpt (fun v => (asObj v).bind decodePronunciation)
        (c.pronunciations.map fun p => JValue.jobj (encodePronunciation p))).map
        (fun pronunciations => ⟨c.provider, c.voice_id, c.speaking_rate, c.audio_format,
          c.sample_rate, c.connection_timeout, c.request_timeout, c.model, pronunciations⟩) := rfl
  rw [h, mapOpt_pron_rt]
  rfl

/-- The LiveKitConfig produced by re-decoding an encoded one: fields left
unset re-decode to their pydantic defaults, set fields are recovered. -/
def lkDefaults (c : LiveKitConfig) : LiveKitConfig :=
  ⟨c.room_name, some (c.enable_recording.getD false), c.recording_file_key,
   some (c.sayna_participant_identity.getD "sayna-ai"),
   some (c.sayna_participant_name.getD "Sayna AI"),
   some (c.listen_participants.getD [])⟩

/-- LiveKitConfig round trip: set fields are recovered, unset optional
fields come back as their defaults. -/
theorem lk_rt (c : LiveKitConfig) :
    decodeLiveKitConfig (encodeLiveKitConfig c) = some (lkDefaults c) := by
  obtain ⟨rn, er, rk, pi, pn, lp⟩ := c
  cases er <;> cases rk <;> cases pi <;> cases pn <;> cases lp <;>
    simp [decodeLiveKitConfig, encodeLiveKitConfig, lkDefaults, optField, getReq, getOpt,
          jlookup, asStr, asBool, asList, mapOpt_str_rt]

/-- The ConfigMessage produced by re-decoding an encoded one. -/
def configDefaults (c : ConfigMessage) : ConfigMessage :=
  ⟨some (c.audio.getD true), c.stt_config, c.tts_config, c.livekit.map lkDefaults⟩

/-- ConfigMessage round trip: set fields are recovered, an unset audio flag
comes back as its default true. -/
theorem config_rt (c : ConfigMessage) :
    decodeConfigMessage (encodeConfigMessage c) = some (configDefaults c) := by
  obtain ⟨au, stt, tts, lk⟩ := c
  cases au <;> cases stt <;> cases tts <;> cases lk <;>
    simp [decodeConfigMessage, encodeConfigMessage, configDefaults, checkType, optField,
          getOpt, jlookup, asBool, asObj, stt_rt, tts_rt, lk_rt]

/-- SpeakMessage round trip is exact (optional defaults are None). -/
theorem speak_rt (m : SpeakMessage) :
    decodeSpeakMessage (encodeSpeakMessage m) = some m := by
  obtain ⟨t, f, a⟩ := m
  cases f <;> cases a <;>
    simp [decodeSpeakMessage, encodeSpeakMessage, checkType, optField, getReq, getOpt,
          jlookup, asStr, asBool]

/-- ClearMessage round trip. -/
theorem clear_rt : decodeClearMessage encodeClearMessage = some ⟨⟩ := rfl

/-- SendMessageMessage round trip is exact (optional defaults are None). -/
theorem send_message_rt (m : SendMessageMessage) :
    decodeSendMessageMessage (encodeSendMessageMessage m) = some m := by
  obtain ⟨msg, r, t, d⟩ := m
  cases t <;> cases d <;>
    simp [decodeSendMessageMessage, encodeSendMessageMessage, checkType, optField, getReq,
          getOpt, jlookup, asStr, asObj]

/-- Looking a key up past a differently-keyed optional field skips it. -/
theorem jlookup_optField_ne {k k' : String} (h : k ≠ k') (v : Option JValue)
    (rest : List (String × JValue)) :
    jlookup k (optField k' v ++ rest) = jlookup k rest := by
  cases v <;> simp [optField, jlookup, h]

/-- Unset SpeakMessage fields are absent from the encoding. -/
theorem speak_unset_absent (m : SpeakMessage) :
    (m.flush = none → jlookup "flush" (encodeSpeakMessage m) = none)
    ∧ (m.allow_interruption = none →
        jlookup "allow_interruption" (encodeSpeakMessage m) = none) := by
  obtain ⟨t, f, a⟩ := m
  refine ⟨fun h => ?_, fun h => ?_⟩ <;> cases f <;> cases a <;>
    simp_all [encodeSpeakMessage, optField, jlookup]

/-- Unset SendMessageMessage fields are absent from the encoding. -/
theorem send_message_unset_absent (m : SendMessageMessage) :
    (m.topic = none → jlookup "topic" (encodeSendMessageMessage m) = none)
    ∧ (m.debug = none → jlookup "debug" (encodeSendMessageMessage m) = none) := by
  obtain ⟨msg, r, t, d⟩ := m
  refine ⟨fun h => ?_, fun h => ?_⟩ <;> cases t <;> cases d <;>
    simp_all [encodeSendMessageMessage, optField, jlookup]

/-- Unset ConfigMessage fields are absent from the encoding. -/
theorem config_unset_absent (c : ConfigMessage) :
    (c.audio = none → jlookup "audio" (encodeConfigMessage c) = none)
    ∧ (c.stt_config = none → jlookup "stt_config" (encodeConfigMessage c) = none)
    ∧ (c.tts_config = none → jlookup "tts_config" (encodeConfigMessage c) = none)
    ∧ (c.livekit = none → jlookup "livekit" (encodeConfigMessage c) = none) := by
  obtain ⟨au, stt, tts, lk⟩ := c
  refine ⟨fun h => ?_, fun h => ?_, fun h => ?_, fun h => ?_⟩ <;>
    cases au <;> cases stt <;> cases tts <;> cases lk <;>
    simp_all [encodeConfigMessage, optField, jlookup]

/-- C8: for every outbound message (config, speak, clear, send_message),
encoding with model_dump(exclude_none=True) and decoding back through the
schema recovers every field that was set, and every field left unset is
absent from the encoding rather than serialized as an explicit null. -/
theorem c8_outbound_roundtrip :
    (∀ m : SpeakMessage, decodeSpeakMessage (encodeSpeakMessage m) = some m
      ∧ (m.flush = none → jlookup "flush" (encodeSpeakMessage m) = none)
      ∧ (m.allow_interruption = none →
          jlookup "allow_interruption" (encodeSpeakMessage m) = none))
    ∧ decodeClearMessage encodeClearMessage = some ⟨⟩
    ∧ (∀ m : SendMessageMessage,
        decodeSendMessageMessage (encodeSendMessageMessage m) = some m
      ∧ (m.topic = none → jlookup "topic" (encodeSendMessageMessage m) = none)
      ∧ (m.debug = none → jlookup "debug" (encodeSendMessageMessage m) = none))
    ∧ (∀ c : ConfigMessage, ∃ c', decodeConfigMessage (encodeConfigMessage c) = some c'
      ∧ (∀ b, c.audio = some b → c'.audio = some b)
      ∧ c'.stt_config = c.stt_config
      ∧ c'.tts_config = c.tts_config
      ∧ (c.livekit = none → c'.livekit = none)
      ∧ (∀ lk, c.livekit = some lk → ∃ lk', c'.livekit = some lk'
          ∧ lk'.room_name = lk.room_name
          ∧ (∀ b, lk.enable_recording = some b → lk'.enable_recording = some b)
          ∧ lk'.recording_file_key = lk.recording_file_key
          ∧ (∀ x, lk.sayna_participant_identity = some x →
              lk'.sayna_participant_identity = some x)
          ∧ (∀ x, lk.sayna_participant_name = some x →
              lk'.sayna_participant_name = some x)
          ∧ (∀ x, lk.listen_participants = some x → lk'.listen_participants = some x))
      ∧ (c.audio = none → jlookup "audio" (encodeConfigMessage c) = none)
      ∧ (c.stt_config = none → jlookup "stt_config" (encodeConfigMessage c) = none)
      ∧ (c.tts_config = none → jlookup "tts_config" (encodeConfigMessage c) = none)
      ∧ (c.livekit = none → jlookup "livekit" (encodeConfigMessage c) = none)) := by
  refine ⟨fun m => ⟨speak_rt m, (speak_unset_absent m).1, (speak_unset_absent m).2⟩,
    clear_rt,
    fun m => ⟨send_message_rt m, (send_message_unset_absent m).1,
      (send_message_unset_absent m).2⟩,
    fun c => ⟨configDefaults c, config_rt c, ?_, rfl, rfl, ?_, ?_,
      (config_unset_absent c).1, (config_unset_absent c).2.1,
      (config_unset_absent c).2.2.1, (config_unset_absent c).2.2.2⟩⟩
  · intro b h
    simp [configDefaults, h]
  · intro h
    simp [configDefaults, h]
  · intro lk h
    refine ⟨lkDefaults lk, by simp [configDefaults, h], rfl, ?_, rfl, ?_, ?_, ?_⟩
    · intro b hb
      simp [lkDefaults, hb]
    · intro x hx
      simp [lkDefaults, hx]
    · intro x hx
      simp [lkDefaults, hx]
    · intro x hx
      simp [lkDefaults, hx]

/-- C1: when the client is not connected every send operation fails with
the not-connected error, when it is connected but not ready every send
operation fails with the not-ready error, the two error kinds are
distinct, and in both cases no outbound frame is written and the state is
unchanged. -/
theorem c1_send_gating (s : ClientState) (text : String) (flush ai : Bool)
    (msg role topic : String) (debug : Option (List (String × JValue)))
    (data : List Nat) :
    (s.connected = false →
      SaynaClient.send_speak s text flush ai = ⟨.error .notConnectedError, s, []⟩
      ∧ SaynaClient.send_clear s = ⟨.error .notConnectedError, s, []⟩
      ∧ SaynaClient.send_message s msg role topic debug =
          ⟨.error .notConnectedError, s, []⟩
      ∧ SaynaClient.send_audio s data = ⟨.error .notConnectedError, s, []⟩)
    ∧ (s.connected = true → s.ready = false →
      SaynaClient.send_speak s text flush ai = ⟨.error .notReadyError, s, []⟩
      ∧ SaynaClient.send_clear s = ⟨.error .notReadyError, s, []⟩
      ∧ SaynaClient.send_message s msg role topic debug = ⟨.error .notReadyError, s, []⟩
      ∧ SaynaClient.send_audio s data = ⟨.error .notReadyError, s, []⟩)
    ∧ SaynaError.notConnectedError ≠ SaynaError.notReadyError := by
  refine ⟨fun h => ?_, fun hc hr => ?_, fun h => nomatch h⟩
  · refine ⟨?_, ?_, ?_, ?_⟩ <;>
      simp [SaynaClient.send_speak, SaynaClient.send_clear, SaynaClient.send_message,
            SaynaClient.send_audio, SaynaClient.check_ready, SaynaClient.check_connected, h]
  · refine ⟨?_, ?_, ?_, ?_⟩ <;>
      simp [SaynaClient.send_speak, SaynaClient.send_clear, SaynaClient.send_message,
            SaynaClient.send_audio, SaynaClient.check_ready, SaynaClient.check_connected,
            hc, hr]

/-- Witness for C1 at a fresh (not connected) client and at a connected but
not ready client. -/
theorem c1_send_gating_witness :
    SaynaClient.send_speak initState "hi" true true =
      ⟨.error .notConnectedError, initState, []⟩
    ∧ SaynaClient.send_clear { initState with connected := true } =
      ⟨.error .notReadyError, { initState with connected := true }, []⟩ :=
  ⟨((c1_send_gating initState "hi" true true "m" "r" "t" none []).1 rfl).1,
   ((c1_send_gating { initState with connected := true } "hi" true true "m" "r" "t"
      none []).2.1 rfl rfl).2.1⟩

/-- C2: connect on a not-connected client with audio enabled and a missing
sub-config raises the validation error synchronously: the state is
unchanged, no frame is written and no Transport open is attempted. -/
theorem c2_validation_before_transport (s : ClientState) (env : SaynaClient.NetEnv)
    (stt : Option STTConfig) (tts : Option TTSConfig) (lk : Option LiveKitConfig)
    (hc : s.connected = false) (hmiss : stt.isNone ∨ tts.isNone) :
    SaynaClient.connect s env stt tts lk true =
      ⟨.error (.validationError "stt_config and tts_config are required when audio=True"),
        s, [], false⟩ := by
  have hb : (stt.isNone || tts.isNone) = true := by
    rcases hmiss with h | h <;> simp [h]
  simp [SaynaClient.connect, hc, hb]

/-- Witness for C2 at a fresh client with both sub-configs missing. -/
theorem c2_validation_before_transport_witness :
    SaynaClient.connect initState ⟨true, true⟩ none none none true =
      ⟨.error (.validationError "stt_config and tts_config are required when audio=True"),
        initState, [], false⟩ :=
  c2_validation_before_transport initState ⟨true, true⟩ none none none rfl (Or.inl rfl)

/-- C10: connect on an already-connected client is a warning no-op for all
arguments, including an invalid bundle: it returns Ok, changes nothing,
writes nothing, attempts no Transport open, and raises no validation
error. -/
theorem c10_connect_noop_when_connected (s : ClientState) (env : SaynaClient.NetEnv)
    (stt : Option STTConfig) (tts : Option TTSConfig) (lk : Option LiveKitConfig)
    (audio : Bool) (hc : s.connected = true) :
    SaynaClient.connect s env stt tts lk audio = ⟨.ok (), s, [], false⟩ := by
  simp [SaynaClient.connect, hc]

/-- Witness for C10 at a connected client with audio enabled and both
sub-configs missing. -/
theorem c10_connect_noop_when_connected_witness :
    SaynaClient.connect { initState with connected := true } ⟨true, true⟩ none none none
      true = ⟨.ok (), { initState with connected := true }, [], false⟩ :=
  c10_connect_noop_when_connected { initState with connected := true } ⟨true, true⟩
    none none none true rfl

/-- Witness for C8 at a speak message with both optional fields unset and
an all-unset config message. -/
theorem c8_outbound_roundtrip_witness :
    decodeSpeakMessage (encodeSpeakMessage ⟨"hi", none, none⟩) = some ⟨"hi", none, none⟩
    ∧ jlookup "flush" (encodeSpeakMessage ⟨"hi", none, none⟩) = none
    ∧ jlookup "audio" (encodeConfigMessage ⟨none, none, none, none⟩) = none := by
  refine ⟨(c8_outbound_roundtrip.1 ⟨"hi", none, none⟩).1,
    (c8_outbound_roundtrip.1 ⟨"hi", none, none⟩).2.1 rfl, ?_⟩
  obtain ⟨c', -, -, -, -, -, -, habs, -, -, -⟩ :=
    c8_outbound_roundtrip.2.2.2 ⟨none, none, none, none⟩
  exact habs rfl

/-- A valid speech-input config used by the concrete scenarios. -/
def sampleSTT : STTConfig := ⟨"deepgram", "en-US", 16000, 1, true, "linear16", "nova-2"⟩

/-- A valid speech-output config used by the concrete scenarios. -/
def sampleTTS : TTSConfig := ⟨"elevenlabs", "voice-1", 1, "pcm", 16000, 5000, 5000, "eleven", []⟩

/-- The inbound ready frame of the C3 scenario, as parsed JSON. -/
def readyJson : List (String × JValue) :=
  [("type", .jstr "ready"), ("livekit_room_name", .jstr "room-1"),
   ("livekit_url", .jstr "wss://x")]

/-- Client state after a successful connect with the sample configs. -/
def connectedState : ClientState :=
  (SaynaClient.connect initState ⟨true, true⟩ (some sampleSTT) (some sampleTTS)
    none true).state

/-- Client state after the receive loop additionally handles the ready
frame. -/
def readyState : ClientState :=
  (processEvents connectedState noCallbacks [.text readyJson]).1

/-- C3: after a successful connect with valid configs and receipt of a
ready frame carrying livekit_room_name "room-1" and livekit_url "wss://x",
the session reports ready with livekit_room_name "room-1", and a
subsequent send_speak "hi" returns Ok and writes exactly one speak frame
whose text field is "hi". -/
theorem c3_ready_scenario :
    readyState.ready = true
    ∧ readyState.livekit_room_name = some "room-1"
    ∧ SaynaClient.send_speak readyState "hi" true true =
        ⟨.ok (), readyState, [Frame.text (encodeSpeakMessage ⟨"hi", some true, some true⟩)]⟩
    ∧ jlookup "text" (encodeSpeakMessage ⟨"hi", some true, some true⟩) =
        some (.jstr "hi") :=
  ⟨rfl, rfl, rfl, rfl⟩

/-- C6: an inbound text frame that fails to decode (malformed JSON, missing
required fields, or an unrecognized discriminator) is dropped: no state
change, no callback invocation, no loop termination, and the remaining
frames are handled exactly as if the bad frame had never arrived. -/
theorem c6_bad_frame_dropped (s : ClientState) (cbs : Callbacks)
    (j : List (String × JValue)) (rest : List InboundEvent) :
    (decodeInbound j = none →
      processEvents s cbs (.text j :: rest) = processEvents s cbs rest)
    ∧ processEvents s cbs (.textMalformed :: rest) = processEvents s cbs rest := by
  refine ⟨fun h => ?_, rfl⟩
  simp [processEvents, handleTextMessage, h]

/-- Witness for C6: the frame whose JSON is just a type of unknown_kind is
dropped ahead of a well-formed ready frame. -/
theorem c6_bad_frame_dropped_witness :
    processEvents connectedState noCallbacks
      [InboundEvent.text [("type", .jstr "unknown_kind")], InboundEvent.text readyJson]
      = processEvents connectedState noCallbacks [InboundEvent.text readyJson] :=
  (c6_bad_frame_dropped connectedState noCallbacks [("type", .jstr "unknown_kind")]
    [InboundEvent.text readyJson]).1 rfl

/-- The same callback registry with every registered handler replaced by one
that does not raise. -/
def clearRaises (cbs : Callbacks) : Callbacks :=
  ⟨cbs.on_ready.map fun _ => false, cbs.on_stt_result.map fun _ => false,
   cbs.on_message.map fun _ => false, cbs.on_error.map fun _ => false,
   cbs.on_participant_disconnected.map fun _ => false,
   cbs.on_tts_playback_complete.map fun _ => false, cbs.on_audio.map fun _ => false⟩

/-- A dispatch-site invocation behaves identically whether or not the host
handler raises: the exception is caught at the dispatch site. -/
theorem callCb_clear (o : Option Bool) (inv : Invocation) :
    callCb (o.map fun _ => false) inv = callCb o inv := by
  cases o with
  | none => rfl
  | some b => cases b <;> rfl

/-- Message dispatch does not depend on whether handlers raise. -/
theorem dispatchMsg_clear (s : ClientState) (cbs : Callbacks) (m : InMsg) :
    dispatchMsg s (clearRaises cbs) m = dispatchMsg s cbs m := by
  cases m <;> simp [dispatchMsg, clearRaises, callCb_clear]

/-- Text-frame handling does not depend on whether handlers raise. -/
theorem handleTextMessage_clear (s : ClientState) (cbs : Callbacks)
    (j : List (String × JValue)) :
    handleTextMessage s (clearRaises cbs) j = handleTextMessage s cbs j := by
  unfold handleTextMessage
  cases decodeInbound j with
  | none => rfl
  | some m => exact dispatchMsg_clear s cbs m

/-- Binary-frame handling does not depend on whether handlers raise. -/
theorem handleBinaryMessage_clear (s : ClientState) (cbs : Callbacks)
    (d : List Nat) :
    handleBinaryMessage s (clearRaises cbs) d = handleBinaryMessage s cbs d := by
  simp [handleBinaryMessage, clearRaises, callCb_clear]

/-- C7: a registered callback of any kind that raises is caught and logged
at the dispatch site: the receive loop result (final state and the full
ordered invocation trace, hence delivery of every subsequent message of
any kind) is identical to the run in which no handler raises, and no
exception propagates out of the loop. -/
theorem c7_callback_isolation (s : ClientState) (cbs : Callbacks)
    (evs : List InboundEvent) :
    processEvents s cbs evs = processEvents s (clearRaises cbs) evs := by
  induction evs generalizing s with
  | nil => rfl
  | cons e rest ih =>
    cases e with
    | textMalformed => simpa [processEvents] using ih s
    | text j => simp [processEvents, handleTextMessage_clear, ih]
    | binary d => simp [processEvents, handleBinaryMessage_clear, ih]
    | wsError => rfl
    | wsClosed => rfl

/-- The strengthened session invariant: a ready session is connected, and a
live dispatch-loop task implies a connected session. -/
def SessionInv (s : ClientState) : Prop :=
  (s.ready = true → s.connected = true) ∧ (s.receive_task = true → s.connected = true)

/-- Text-frame handling never touches `_connected` or `_receive_task`. -/
theorem handleTextMessage_connected (s : ClientState) (cbs : Callbacks)
    (j : List (String × JValue)) :
    (handleTextMessage s cbs j).1.connected = s.connected
    ∧ (handleTextMessage s cbs j).1.receive_task = s.receive_task := by
  unfold handleTextMessage
  cases decodeInbound j with
  | none => exact ⟨rfl, rfl⟩
  | some m => cases m <;> exact ⟨rfl, rfl⟩

/-- While the loop runs on a connected session, the invariant holds at its
result: frame handlers never clear `_connected`, and the loop exit clears
`_ready` and the task together with `_connected`. -/
theorem processEvents_inv (cbs : Callbacks) (evs : List InboundEvent) :
    ∀ s : ClientState, s.connected = true → SessionInv (processEvents s cbs evs).1 := by
  induction evs with
  | nil => exact fun s h => ⟨fun _ => h, fun _ => h⟩
  | cons e rest ih =>
    intro s h
    cases e with
    | textMalformed => exact ih s h
    | text j =>
      have hc2 : (handleTextMessage s cbs j).1.connected = true := by
        rw [(handleTextMessage_connected s cbs j).1]
        exact h
      exact ih _ hc2
    | binary d => exact ih _ h
    | wsError => exact ⟨fun hh => (nomatch hh), fun hh => nomatch hh⟩
    | wsClosed => exact ⟨fun hh => (nomatch hh), fun hh => nomatch hh⟩

/-- connect preserves the invariant. -/
theorem connect_inv (s : ClientState) (env : SaynaClient.NetEnv)
    (stt : Option STTConfig) (tts : Option TTSConfig) (lk : Option LiveKitConfig)
    (audio : Bool) (h : SessionInv s) :
    SessionInv (SaynaClient.connect s env stt tts lk audio).state := by
  obtain ⟨hr, ht⟩ := h
  cases hc : s.connected with
  | true =>
    simp [SaynaClient.connect, hc]
    exact ⟨hr, ht⟩
  | false =>
    have hrf : s.ready = false := by
      cases hry : s.ready
      · rfl
      · exact absurd (hr hry) (by simp [hc])
    have htf : s.receive_task = false := by
      cases hty : s.receive_task
      · rfl
      · exact absurd (ht hty) (by simp [hc])
    simp only [SaynaClient.connect, hc]
    split
    · exact ⟨hr, ht⟩
    · split
      · exact ⟨hr, ht⟩
      · split
        · simp [SessionInv, hrf, htf]
        · split
          · simp [SessionInv, hrf, htf]
          · simp [SessionInv]

/-- disconnect preserves the invariant. -/
theorem disconnect_inv (s : ClientState) (env : SaynaClient.DisconnectEnv)
    (h : SessionInv s) : SessionInv (SaynaClient.disconnect s env).state := by
  obtain ⟨hr, ht⟩ := h
  cases hc : s.connected with
  | false =>
    simp [SaynaClient.disconnect, hc]
    exact ⟨hr, ht⟩
  | true =>
    have hcinv : SessionInv (SaynaClient.cancelReceiveTask s) := by
      unfold SaynaClient.cancelReceiveTask
      split
      · simp [SessionInv]
      · exact ⟨hr, ht⟩
    have htask : (SaynaClient.cancelReceiveTask s).receive_task = false := by
      unfold SaynaClient.cancelReceiveTask
      split
      · rfl
      · simp_all
    simp only [SaynaClient.disconnect, hc]
    split
    · simp_all
    split
    · exact hcinv
    split
    · exact hcinv
    split
    · exact hcinv
    · simp [SessionInv, htask]

/-- send_speak never changes the client state. -/
theorem send_speak_state (s : ClientState) (t : String) (f a : Bool) :
    (SaynaClient.send_speak s t f a).state = s := by
  simp only [SaynaClient.send_speak]
  split
  · rfl
  · split <;> rfl

/-- send_clear never changes the client state. -/
theorem send_clear_state (s : ClientState) : (SaynaClient.send_clear s).state = s := by
  simp only [SaynaClient.send_clear]
  split
  · rfl
  · split <;> rfl

/-- send_message never changes the client state. -/
theorem send_message_state (s : ClientState) (m r t : String)
    (d : Option (List (String × JValue))) :
    (SaynaClient.send_message s m r t d).state = s := by
  simp only [SaynaClient.send_message]
  split
  · rfl
  · split <;> rfl

/-- send_audio never changes the client state. -/
theorem send_audio_state (s : ClientState) (d : List Nat) :
    (SaynaClient.send_audio s d).state = s := by
  simp only [SaynaClient.send_audio]
  split <;> rfl

/-- Every single operation preserves the invariant. -/
theorem applyOp_inv (s : ClientState) (op : Op) (h : SessionInv s) : SessionInv (applyOp s op) := by
  cases op with
  | opConnect env stt tts lk audio => exact connect_inv s env stt tts lk audio h
  | opDisconnect env => exact disconnect_inv s env h
  | opSendSpeak t f a => simpa [applyOp, send_speak_state] using h
  | opSendClear => simpa [applyOp, send_clear_state] using h
  | opSendMessage m r t d => simpa [applyOp, send_message_state] using h
  | opSendAudio d => simpa [applyOp, send_audio_state] using h
  | opDispatch cbs evs =>
    cases hty : s.receive_task with
    | false => simp only [applyOp, hty]; exact h
    | true =>
      simp only [applyOp, hty]
      exact processEvents_inv cbs evs s (h.2 hty)

/-- The invariant holds in every reachable state. -/
theorem runOps_inv (ops : List Op) : SessionInv (runOps ops) := by
  have aux : ∀ (l : List Op) (s : ClientState), SessionInv s → SessionInv (l.foldl applyOp s) := by
    intro l
    induction l with
    | nil => exact fun s h => h
    | cons op rest ih => exact fun s h => ih (applyOp s op) (applyOp_inv s op h)
  exact aux ops initState ⟨fun h => (nomatch h), fun h => nomatch h⟩

/-- C9: in every state reachable from a fresh client by any sequence of
operations (connect, disconnect, sends, dispatch-loop frame handling and
loop exit), ready implies connected. -/
theorem c9_ready_implies_connected (ops : List Op) (h : (runOps ops).ready = true) :
    (runOps ops).connected = true :=
  (runOps_inv ops).1 h

/-- Witness for C9 at a run that actually reaches a ready state. -/
theorem c9_ready_implies_connected_witness :
    (runOps [Op.opConnect ⟨true, true⟩ (some sampleSTT) (some sampleTTS) none true,
             Op.opDispatch noCallbacks [InboundEvent.text readyJson]]).connected = true :=
  c9_ready_implies_connected
    [Op.opConnect ⟨true, true⟩ (some sampleSTT) (some sampleTTS) none true,
     Op.opDispatch noCallbacks [InboundEvent.text readyJson]] rfl

/-- A second inbound ready frame carrying a different room name. -/
def readyJson2 : List (String × JValue) :=
  [("type", .jstr "ready"), ("livekit_room_name", .jstr "room-2"),
   ("livekit_url", .jstr "wss://x")]

/-- Client state after the receive loop handles the second ready frame. -/
def readyState2 : ClientState :=
  (processEvents readyState noCallbacks [.text readyJson2]).1

/-- The four post-handshake session fields of a client state. -/
def readyFields (s : ClientState) :
    Option String × Option String × Option String × Option String :=
  (s.livekit_room_name, s.livekit_url, s.sayna_participant_identity,
   s.sayna_participant_name)

/-- Counterexample to C5: after the ready event a later ready frame changes
livekit_room_name from room-1 to room-2, and a fully successful
disconnect() leaves it set to room-2 instead of resetting it to unset. -/
theorem c5_counterexample :
    readyState.livekit_room_name = some "room-1"
    ∧ readyState2.livekit_room_name = some "room-2"
    ∧ (SaynaClient.disconnect readyState2 ⟨true, true, true⟩).result = .ok ()
    ∧ (SaynaClient.disconnect readyState2 ⟨true, true, true⟩).state.livekit_room_name
        = some "room-2" :=
  ⟨rfl, rfl, rfl, rfl⟩

/-- C5 as amended: the post-handshake fields are unset on a fresh client,
are modified only by ready-frame handling (each ready frame overwrites
them with the frame's values), and are preserved — not reset — by every
other operation, including disconnect and the receive-loop exit. -/
theorem c5_fields_lifecycle :
    (initState.livekit_room_name = none ∧ initState.livekit_url = none
      ∧ initState.sayna_participant_identity = none
      ∧ initState.sayna_participant_name = none)
    ∧ (∀ (s : ClientState) (env : SaynaClient.NetEnv) (stt : Option STTConfig)
        (tts : Option TTSConfig) (lk : Option LiveKitConfig) (audio : Bool),
        readyFields (SaynaClient.connect s env stt tts lk audio).state = readyFields s)
    ∧ (∀ (s : ClientState) (env : SaynaClient.DisconnectEnv),
        readyFields (SaynaClient.disconnect s env).state = readyFields s)
    ∧ (∀ (s : ClientState) (t : String) (f a : Bool),
        readyFields (SaynaClient.send_speak s t f a).state = readyFields s)
    ∧ (∀ s : ClientState, readyFields (SaynaClient.send_clear s).state = readyFields s)
    ∧ (∀ (s : ClientState) (m r t : String) (d : Option (List (String × JValue))),
        readyFields (SaynaClient.send_message s m r t d).state = readyFields s)
    ∧ (∀ (s : ClientState) (d : List Nat),
        readyFields (SaynaClient.send_audio s d).state = readyFields s)
    ∧ (∀ (s : ClientState) (cbs : Callbacks) (m : InMsg),
        (∀ rm, m ≠ InMsg.ready rm) → readyFields (dispatchMsg s cbs m).1 = readyFields s)
    ∧ (∀ s : ClientState, readyFields (loopFinally s) = readyFields s)
    ∧ (∀ (s : ClientState) (cbs : Callbacks) (rm : ReadyMessage),
        readyFields (dispatchMsg s cbs (InMsg.ready rm)).1 =
          (rm.livekit_room_name, some rm.livekit_url, rm.sayna_participant_identity,
           rm.sayna_participant_name)) := by
  refine ⟨⟨rfl, rfl, rfl, rfl⟩, ?_, ?_, ?_, ?_, ?_, ?_, ?_, fun s => rfl, fun s cbs rm => rfl⟩
  · intro s env stt tts lk audio
    simp only [SaynaClient.connect]
    split
    · rfl
    split
    · rfl
    split
    · rfl
    split
    · rfl
    rfl
  · intro s env
    have hfix : readyFields (SaynaClient.cancelReceiveTask s) = readyFields s := by
      unfold SaynaClient.cancelReceiveTask
      split <;> rfl
    simp only [SaynaClient.disconnect]
    split
    · rfl
    split
    · exact hfix
    split
    · exact hfix
    split
    · exact hfix
    · exact hfix
  · intro s t f a
    rw [send_speak_state]
  · intro s
    rw [send_clear_state]
  · intro s m r t d
    rw [send_message_state]
  · intro s d
    rw [send_audio_state]
  · intro s cbs m h
    cases m with
    | ready rm => exact absurd rfl (h rm)
    | sttResult m => rfl
    | message m => rfl
    | error m => rfl
    | participantDisconnected m => rfl
    | ttsPlaybackComplete m => rfl

/-- Witness for the amended C5 at a concrete ready client: disconnect and a
non-ready dispatch both leave the fields untouched. -/
theorem c5_fields_lifecycle_witness :
    readyFields (SaynaClient.disconnect readyState ⟨true, true, true⟩).state =
      readyFields readyState
    ∧ readyFields (dispatchMsg readyState noCallbacks (InMsg.error ⟨"boom"⟩)).1 =
      readyFields readyState :=
  ⟨c5_fields_lifecycle.2.2.1 readyState ⟨true, true, true⟩,
   c5_fields_lifecycle.2.2.2.2.2.2.2.1 readyState noCallbacks (InMsg.error ⟨"boom"⟩)
     (fun _ h => nomatch h)⟩

/-- Counterexample to C4: disconnect() on a not-connected client does not
release the REST transport; on a connected client a WebSocket-close
failure propagates a SaynaConnectionError to the caller and aborts the
remaining cleanup steps (the session stays open and the WebSocket handle
is not reset). -/
theorem c4_counterexample :
    (SaynaClient.disconnect initState ⟨true, true, true⟩).state.http_closed = false
    ∧ (SaynaClient.disconnect readyState ⟨true, false, true⟩).result
        = .error (.connectionError "Error during disconnect")
    ∧ (SaynaClient.disconnect readyState ⟨true, false, true⟩).state.session_open = true
    ∧ (SaynaClient.disconnect readyState ⟨true, false, true⟩).state.ws_open = true :=
  ⟨rfl, rfl, rfl, rfl⟩

/-- C4 as amended: disconnect() on a not-connected client returns
immediately without any cleanup and without releasing the REST transport;
on a connected client the REST transport is always released as the final
step, cancelling the dispatch loop runs the loop's own finally clause
(clearing connected/ready before the remaining steps), a fully successful
run performs every cleanup step, and a failing cleanup step (here:
WebSocket close) skips the remaining steps of the try block and
propagates a SaynaConnectionError to the caller. -/
theorem c4_disconnect_behaviour (s : ClientState) (env : SaynaClient.DisconnectEnv) :
    (s.connected = false → SaynaClient.disconnect s env = ⟨.ok (), s⟩)
    ∧ (s.connected = true → (SaynaClient.disconnect s env).state.http_closed = true)
    ∧ (s.connected = true → (s.receive_task = true → env.cancel_ok = true) →
        (s.ws_open = true → env.ws_close_ok = true) →
        (s.session_open = true → env.session_close_ok = true) →
        SaynaClient.disconnect s env =
          ⟨.ok (), { s with
                      receive_task := false
                      ws_open := false
                      session_open := false
                      connected := false
                      ready := false
                      http_closed := true }⟩)
    ∧ (s.connected = true → s.receive_task = true → s.ws_open = true →
        env.ws_close_ok = false → env.cancel_ok = true →
        SaynaClient.disconnect s env =
          ⟨.error (.connectionError "Error during disconnect"),
            { s with
               connected := false
               ready := false
               receive_task := false
               http_closed := true }⟩) := by
  refine ⟨fun h => ?_, fun h => ?_, fun h h1 h2 h3 => ?_, fun h hrt hw hwc hca => ?_⟩
  · simp [SaynaClient.disconnect, h]
  · simp only [SaynaClient.disconnect, h]
    split
    · simp_all
    split
    · rfl
    split
    · rfl
    split
    · rfl
    rfl
  · cases hrt : s.receive_task <;> cases hws : s.ws_open <;> cases hso : s.session_open <;>
      simp_all [SaynaClient.disconnect, SaynaClient.cancelReceiveTask]
  · simp [SaynaClient.disconnect, SaynaClient.cancelReceiveTask, h, hrt, hw, hwc, hca]

/-- Witness for the amended C4: a not-connected no-op that skips the REST
release, and a connected client whose REST transport is released despite a
failing WebSocket close. -/
theorem c4_disconnect_behaviour_witness :
    SaynaClient.disconnect initState ⟨true, true, true⟩ = ⟨.ok (), initState⟩
    ∧ (SaynaClient.disconnect readyState ⟨true, false, true⟩).state.http_closed = true :=
  ⟨(c4_disconnect_behaviour initState ⟨true, true, true⟩).1 rfl,
   (c4_disconnect_behaviour readyState ⟨true, false, true⟩).2.1 rfl⟩
